import Mathlib

/-!
Shallow embedding of `src/pytanque/client.py` (the `Pytanque` petanque
client).  Pure session state is made explicit: the Python object's mutable
fields become a `Pytanque` structure threaded through each operation.  The
Python `deque` is used purely as a stack (append right, pop right, peek
right), so it is embedded as a `List State` whose HEAD is the top of the
stack (the deque's right end).  The server and the socket are opaque
peers: each RPC exchange is parameterised by a `Wire` value describing how
the transport behaved and what the received bytes decode to.  Python
exceptions become an explicit `Err` sum carried in `Except`.

The wire-codec classes (`Response`, `Failure`, `RunResponse`,
`GoalsResponse`, `PremisesResponse` from `pytanque/protocol.py`) are not
part of the sources; they are modelled from the spec where noted.
-/

set_option autoImplicit false

/-- Modelled from the spec: the decoded variants of a `petanque/run` result
(`RunResponse.value` in `pytanque/protocol.py`, absent from the sources).
The spec gives exactly two meaningful variants, `CurrentState(new_id)` and
`ProofFinished(new_id)`, with integer state handles; `otherVariant` stands
for any other decoded variant. -/
inductive RunRes where
  | CurrentState (st : Int)
  | ProofFinished (st : Int)
  | otherVariant
  deriving DecidableEq, Repr

/-- Modelled from the spec: a decoded JSON `result` payload of a `Response`
(method-specific structured value).  `num` is a JSON integer (environment
handle or state handle), `run` a payload that `RunResponse.from_json`
decodes to the given variant, `goalList` / `premiseList` payloads that
`GoalsResponse.from_json` / `PremisesResponse.from_json` accept, and
`otherJson` any other JSON value. -/
inductive RVal where
  | num (n : Int)
  | str (s : String)
  | run (r : RunRes)
  | goalList (gs : List String)
  | premiseList (ps : List String)
  | otherJson
  deriving DecidableEq, Repr

/-- The exceptions the client can raise.  `protocolMismatch sent got`
embeds `PetanqueError(f"Sent request {sent}, got response {got}")` (the
message carries both ids, so the embedding keeps them structurally);
`serverError msg` embeds `PetanqueError(failure.error)`;
`invalidProofState` embeds `PetanqueError("Invalid proof state")`;
`indexError` a deque access on an empty deque; `valueError` an uncaught
decode `ValueError`; `transportError` a socket exception. -/
inductive Err where
  | protocolMismatch (sent got : Nat)
  | serverError (msg : String)
  | invalidProofState
  | indexError
  | valueError
  | transportError
  deriving DecidableEq, Repr

/-- The five request-parameter variants (the `Params` union in
`client.py`).  State and environment handles are carried as the raw JSON
values the client stored, since `client.py` never converts them. -/
inductive Params where
  | init (uri : String)
  | start (env : RVal) (uri : String) (thm : String)
  | run (st : RVal) (tac : String)
  | goals (st : RVal)
  | premises (st : RVal)
  deriving DecidableEq, Repr

/-- A JSON-RPC request (`Request` in `pytanque/protocol.py`, modelled from
the spec: `{id, method, params}`). -/
structure Request where
  id : Nat
  method : String
  params : Params
  deriving DecidableEq, Repr

/-- `client.py`, `mk_request`: dispatch on the params variant to the fixed
method name.  The Python `case _` branch (`PetanqueError("Invalid request
params")`) is unreachable because `Params` is exactly the closed union. -/
def mk_request (id : Nat) (params : Params) : Request :=
  match params with
  | .init _ => ⟨id, "petanque/init", params⟩
  | .start _ _ _ => ⟨id, "petanque/start", params⟩
  | .run _ _ => ⟨id, "petanque/run", params⟩
  | .goals _ => ⟨id, "petanque/goals", params⟩
  | .premises _ => ⟨id, "petanque/premises", params⟩

/-- Modelled from the spec: a well-formed server reply
(`Response` in `pytanque/protocol.py`): `{id, result}`. -/
structure Response where
  id : Nat
  result : RVal
  deriving DecidableEq, Repr

/-- `client.py`, `State`: prover state handle and the action that produced
it.  The handle is stored exactly as received (`resp.result`), so it is an
`RVal`. -/
structure State where
  id : RVal
  action : String
  deriving DecidableEq, Repr

/-- The mutable fields of the `Pytanque` client object (`__init__`):
request-id counter (starts at 0), the state stack (`queue`, head = top),
environment handle, and the stored file path and theorem name.  `host`,
`port` and the socket object are connection plumbing with no bearing on
the claims and are left to the `Wire` parameter. -/
structure Pytanque where
  id : Nat
  queue : List State
  env : RVal
  file : String
  thm : String
  deriving DecidableEq, Repr

/-- A fresh client as built by `Pytanque.__init__`: id 0, empty queue,
`env = 0`, empty file and theorem names. -/
def Pytanque.new : Pytanque := ⟨0, [], .num 0, "", ""⟩

/-- Modelled from the spec: what the raw received bytes decode to.
`resp` means `Response.from_json_string` succeeds; `failureOnly` means it
raises `ValueError` and `Failure.from_json_string` yields `{error}`;
`neither` means both decodes raise `ValueError`. -/
inductive Decoded where
  | resp (id : Nat) (result : RVal)
  | failureOnly (error : String)
  | neither
  deriving DecidableEq, Repr

/-- One round-trip's transport outcome: either bytes arrived and decoded
as described, or a socket exception was raised during send/receive. -/
inductive Wire where
  | reply (d : Decoded)
  | down
  deriving DecidableEq, Repr

/-- `client.py`, `Pytanque.query` lines 119-125: the receive loop.  The
argument is the successive chunks `socket.recv(size)` returns (each of at
most `size` bytes, bytes as `Nat`); the loop appends chunks until one is
shorter than `size`.  If the source of chunks is exhausted first, the real
loop blocks in `recv` forever: `none`. -/
def recvLoop (size : Nat) : List (List Nat) → Option (List Nat)
  | [] => none
  | c :: cs =>
    if c.length < size then some c
    else
      match recvLoop size cs with
      | none => none
      | some rest => some (c ++ rest)

/-- Result of one `query` call: the updated session (the counter increment
persists even when the call raises), the request handed to `sendall`, and
the returned response or raised exception. -/
structure QueryOut where
  sess : Pytanque
  sent : Request
  out : Except Err Response
  deriving Repr

/-- `client.py`, `Pytanque.query`: increment `self.id`, build the request,
send it, receive and decode the reply.  On a decoded `Response` whose id
differs from `self.id`, raise the mismatch error; if `Response` decoding
fails, decode as `Failure` and raise its error message; if that fails too,
the `ValueError` escapes uncaught.  Only `self.id` among the session
fields is touched. -/
def Pytanque.query (s : Pytanque) (params : Params) (w : Wire) : QueryOut :=
  let i := s.id + 1
  let req := mk_request i params
  { sess := { s with id := i }
    sent := req
    out :=
      match w with
      | .down => .error .transportError
      | .reply (.resp rid result) =>
        if rid ≠ i then .error (.protocolMismatch i rid)
        else .ok ⟨rid, result⟩
      | .reply (.failureOnly msg) => .error (.serverError msg)
      | .reply .neither => .error .valueError }

/-- `client.py`, `Pytanque.current_state`: `self.queue[-1].id`; raises
`IndexError` on an empty deque. -/
def Pytanque.current_state (s : Pytanque) : Except Err RVal :=
  match s.queue with
  | [] => .error .indexError
  | st :: _ => .ok st.id

/-- Modelled from the spec: the absolute-path / file-URI conversion
(`os.path.abspath` + `pathlib.Path.as_uri`), an external boundary utility
("a standard, swappable utility, not part of the core contract"). -/
def as_uri (path : String) : String := String.append "file://" path

/-- Result of one session operation: returned value or raised exception,
the session afterwards, and the requests handed to the transport. -/
structure OpOut (α : Type) where
  result : Except Err α
  sess : Pytanque
  sent : List Request
  deriving Repr

/-- `client.py`, `Pytanque.init`: query `petanque/init` with the root URI
and store the raw result as the environment handle. -/
def Pytanque.init (s : Pytanque) (root : String) (w : Wire) : OpOut Unit :=
  let q := s.query (.init (as_uri root)) w
  match q.out with
  | .error e => ⟨.error e, q.sess, [q.sent]⟩
  | .ok resp => ⟨.ok (), { q.sess with env := resp.result }, [q.sent]⟩

/-- `client.py`, `Pytanque.start`: store `file` and `thm`, CLEAR the state
stack, then query `petanque/start`; on success push the single entry
`State(resp.result, "Start")`.  The clearing happens before the query, so
a failing `start` leaves the stack empty. -/
def Pytanque.start (s : Pytanque) (file thm : String) (w : Wire) :
    OpOut Unit :=
  let s1 := { s with file := file, thm := thm, queue := [] }
  let q := s1.query (.start s1.env (as_uri file) s1.thm) w
  match q.out with
  | .error e => ⟨.error e, q.sess, [q.sent]⟩
  | .ok resp => ⟨.ok (), { q.sess with queue := [⟨resp.result, "Start"⟩] }, [q.sent]⟩

/-- Modelled from the spec: `RunResponse.from_json` decodes a run result
payload into its variant, raising `ValueError` on any other JSON value. -/
def RunResponse.from_json (v : RVal) : Except Err RunRes :=
  match v with
  | .run r => .ok r
  | _ => .error .valueError

/-- Modelled from the spec: `GoalsResponse.from_json` decodes the
structured goal list, raising `ValueError` on any other JSON value. -/
def GoalsResponse.from_json (v : RVal) : Except Err (List String) :=
  match v with
  | .goalList gs => .ok gs
  | _ => .error .valueError

/-- Modelled from the spec: `PremisesResponse.from_json` decodes the
structured premise list, raising `ValueError` on any other JSON value. -/
def PremisesResponse.from_json (v : RVal) : Except Err (List String) :=
  match v with
  | .premiseList ps => .ok ps
  | _ => .error .valueError

/-- Embedding of the tactic-running method of `client.py` (lines
164-178; named `runTac` here): query `petanque/run` against the
current top-of-stack handle, decode the result; `CurrentState st` and
`ProofFinished st` each push `State(st, tac)` and are returned; any other
variant raises `PetanqueError("Invalid proof state")`.  An empty stack
raises `IndexError` in `current_state` before any request is sent. -/
def Pytanque.runTac (s : Pytanque) (tac : String) (w : Wire) :
    OpOut RunRes :=
  match s.current_state with
  | .error e => ⟨.error e, s, []⟩
  | .ok cur =>
    let q := s.query (.run cur tac) w
    match q.out with
    | .error e => ⟨.error e, q.sess, [q.sent]⟩
    | .ok resp =>
      match RunResponse.from_json resp.result with
      | .error e => ⟨.error e, q.sess, [q.sent]⟩
      | .ok res =>
        match res with
        | .CurrentState st =>
          ⟨.ok res, { q.sess with queue := ⟨.num st, tac⟩ :: q.sess.queue }, [q.sent]⟩
        | .ProofFinished st =>
          ⟨.ok res, { q.sess with queue := ⟨.num st, tac⟩ :: q.sess.queue }, [q.sent]⟩
        | .otherVariant => ⟨.error .invalidProofState, q.sess, [q.sent]⟩

/-- `client.py`, `Pytanque.goals`: query `petanque/goals` against the
current top-of-stack handle and return the decoded goal list; the stack is
never touched. -/
def Pytanque.goals (s : Pytanque) (w : Wire) : OpOut (List String) :=
  match s.current_state with
  | .error e => ⟨.error e, s, []⟩
  | .ok cur =>
    let q := s.query (.goals cur) w
    match q.out with
    | .error e => ⟨.error e, q.sess, [q.sent]⟩
    | .ok resp =>
      match GoalsResponse.from_json resp.result with
      | .error e => ⟨.error e, q.sess, [q.sent]⟩
      | .ok res => ⟨.ok res, q.sess, [q.sent]⟩

/-- `client.py`, `Pytanque.premises`: query `petanque/premises` against
the current top-of-stack handle and return the decoded premise list; the
stack is never touched. -/
def Pytanque.premises (s : Pytanque) (w : Wire) : OpOut (List String) :=
  match s.current_state with
  | .error e => ⟨.error e, s, []⟩
  | .ok cur =>
    let q := s.query (.premises cur) w
    match q.out with
    | .error e => ⟨.error e, q.sess, [q.sent]⟩
    | .ok resp =>
      match PremisesResponse.from_json resp.result with
      | .error e => ⟨.error e, q.sess, [q.sent]⟩
      | .ok res => ⟨.ok res, q.sess, [q.sent]⟩

/-- `client.py`, `Pytanque.backtrack`: `self.queue.pop()` and return the
popped entry's `(id, action)`.  The pop is unconditional: it raises only
on an already-empty deque (`IndexError`), and sends nothing. -/
def Pytanque.backtrack (s : Pytanque) : OpOut (RVal × String) :=
  match s.queue with
  | [] => ⟨.error .indexError, s, []⟩
  | st :: rest => ⟨.ok (st.id, st.action), { s with queue := rest }, []⟩

/-- `client.py`, `Pytanque.reset`: `start` again with the stored file and
theorem name. -/
def Pytanque.reset (s : Pytanque) (w : Wire) : OpOut Unit :=
  s.start s.file s.thm w

/-- One client call of any of the five request-issuing kinds, with the
wire behaviour its query will see. -/
inductive Call where
  | init (root : String) (w : Wire)
  | start (file thm : String) (w : Wire)
  | runTac (tac : String) (w : Wire)
  | goals (w : Wire)
  | premises (w : Wire)

/-- Perform one call, keeping the resulting session and the requests it
sent (exceptions are caught by the driver: the session state after a
failed call persists, as the Python object does). -/
def doCall (s : Pytanque) : Call → Pytanque × List Request
  | .init root w => ((s.init root w).sess, (s.init root w).sent)
  | .start file thm w => ((s.start file thm w).sess, (s.start file thm w).sent)
  | .runTac tac w => ((s.runTac tac w).sess, (s.runTac tac w).sent)
  | .goals w => ((s.goals w).sess, (s.goals w).sent)
  | .premises w => ((s.premises w).sess, (s.premises w).sent)

/-- Perform a sequence of calls, collecting every request sent. -/
def runCalls (s : Pytanque) : List Call → Pytanque × List Request
  | [] => (s, [])
  | c :: cs =>
    let p := doCall s c
    let p2 := runCalls p.1 cs
    (p2.1, p.2 ++ p2.2)

/-- Perform a sequence of `runTac` calls (tactic text and wire behaviour
for each); the first raised exception aborts the sequence, as it does in
Python. -/
def runTacSeq (s : Pytanque) : List (String × Wire) → Except Err Pytanque
  | [] => .ok s
  | tw :: rest =>
    match (s.runTac tw.1 tw.2).result with
    | .error e => .error e
    | .ok _ => runTacSeq (s.runTac tw.1 tw.2).sess rest

/-! ## Claim C1: backtrack on a one-entry stack -/

/-- C1 counterexample: on a session whose stack holds exactly one entry,
`backtrack` does NOT fail with an error: the unconditional `pop` succeeds,
returns the initial entry, and leaves the stack empty — the initial entry
is popped, contradicting the claim. -/
theorem C1_counterexample :
    (Pytanque.backtrack ⟨3, [⟨.num 5, "Start"⟩], .num 0, "a.v", "foo"⟩).result
        = .ok (.num 5, "Start") ∧
    (Pytanque.backtrack ⟨3, [⟨.num 5, "Start"⟩], .num 0, "a.v", "foo"⟩).sess.queue
        = [] :=
  ⟨rfl, rfl⟩

/-- C1 (amended): on a stack with exactly one entry, `backtrack` succeeds,
popping the initial entry, returning its `(id, action)` and leaving the
stack empty; it fails — with an `IndexError`, not an `InvalidOperation`
error — only when the stack is already empty, in which case the session is
left unchanged. -/
theorem C1_backtrack_singleton (s s2 : Pytanque) (st : State)
    (h : s.queue = [st]) (h2 : s2.queue = []) :
    s.backtrack.result = .ok (st.id, st.action) ∧
    s.backtrack.sess.queue = [] ∧
    s2.backtrack.result = .error .indexError ∧
    s2.backtrack.sess = s2 := by
  refine ⟨?_, ?_, ?_, ?_⟩ <;> simp [Pytanque.backtrack, h, h2]

/-- C1 witness: the amended theorem applied at concrete sessions. -/
theorem C1_backtrack_singleton_witness :
    (Pytanque.backtrack ⟨2, [⟨.num 7, "x"⟩], .num 0, "f", "t"⟩).result
        = .ok (.num 7, "x") ∧
    (Pytanque.backtrack ⟨2, [⟨.num 7, "x"⟩], .num 0, "f", "t"⟩).sess.queue = [] ∧
    (Pytanque.backtrack ⟨9, [], .num 0, "f", "t"⟩).result = .error .indexError ∧
    (Pytanque.backtrack ⟨9, [], .num 0, "f", "t"⟩).sess = ⟨9, [], .num 0, "f", "t"⟩ :=
  C1_backtrack_singleton ⟨2, [⟨.num 7, "x"⟩], .num 0, "f", "t"⟩
    ⟨9, [], .num 0, "f", "t"⟩ ⟨.num 7, "x"⟩ rfl rfl

/-! ## Claim C10: backtrack is purely local -/

/-- C10: `backtrack` sends no request to the server, does not increment
the request-id counter, and leaves the environment handle, stored file
path and stored theorem name unchanged, whether it succeeds or raises. -/
theorem C10_backtrack_local (s : Pytanque) :
    s.backtrack.sent = [] ∧
    s.backtrack.sess.id = s.id ∧
    s.backtrack.sess.env = s.env ∧
    s.backtrack.sess.file = s.file ∧
    s.backtrack.sess.thm = s.thm := by
  cases h : s.queue <;> simp [Pytanque.backtrack, h]

/-! ## Claim C9: the receive loop -/

/-- C9: for any incoming chunk sequence (each chunk at most the requested
size, as `recv` guarantees) containing a short chunk, the receive loop
terminates at the first short chunk `c` and returns the concatenation of
all chunks up to and including it; every earlier chunk is exactly the
requested size. -/
theorem C9_recvLoop_first_short (size : Nat) (pre post : List (List Nat))
    (c : List Nat)
    (hall : ∀ d ∈ pre ++ c :: post, d.length ≤ size)
    (hpre : ∀ d ∈ pre, ¬ d.length < size)
    (hc : c.length < size) :
    recvLoop size (pre ++ c :: post) = some (pre.flatten ++ c) ∧
    pre.map List.length = List.replicate pre.length size := by
  induction pre with
  | nil => simp [recvLoop, hc]
  | cons a as ih =>
    have ha : ¬ a.length < size := hpre a (by simp)
    have hlen : a.length = size :=
      le_antisymm (hall a (by simp)) (le_of_not_lt ha)
    obtain ⟨h1, h2⟩ := ih
      (fun d hd => hall d (by simp at hd ⊢; tauto))
      (fun d hd => hpre d (by simp [hd]))
    constructor
    · simp only [List.cons_append, recvLoop, if_neg ha, List.append_eq, h1,
        List.flatten_cons, List.append_assoc]
    · simp [hlen, h2, List.replicate_succ]

/-- C9 witness: chunk size 2, two full chunks, then a short chunk; the
trailing chunk is never read. -/
theorem C9_recvLoop_first_short_witness :
    recvLoop 2 [[0, 0], [1, 1], [2], [9]] = some [0, 0, 1, 1, 2] ∧
    ([[0, 0], [1, 1]] : List (List Nat)).map List.length =
      List.replicate 2 2 := by
  simpa using C9_recvLoop_first_short 2 [[0, 0], [1, 1]] [[9]] [2]
    (by decide) (by decide) (by decide)

/-! ## Helper lemmas about `query` and the operations -/

/-- The session after `query`: only the id counter changes. -/
theorem query_sess (s : Pytanque) (p : Params) (w : Wire) :
    (s.query p w).sess = { s with id := s.id + 1 } := rfl

/-- The request handed to `sendall` by `query`. -/
theorem query_sent (s : Pytanque) (p : Params) (w : Wire) :
    (s.query p w).sent = mk_request (s.id + 1) p := rfl

/-- The outcome of `query` on a decoded `Response`. -/
theorem query_out_resp (s : Pytanque) (p : Params) (rid : Nat) (res : RVal) :
    (s.query p (.reply (.resp rid res))).out =
      if rid ≠ s.id + 1 then .error (.protocolMismatch (s.id + 1) rid)
      else .ok ⟨rid, res⟩ := rfl

/-- `init` never touches the state stack, succeed or fail. -/
theorem init_queue (s : Pytanque) (root : String) (w : Wire) :
    (s.init root w).sess.queue = s.queue := by
  simp only [Pytanque.init]
  cases hw : (s.query (.init (as_uri root)) w).out <;>
    simp [hw, query_sess]

/-- `goals` never touches the state stack, succeed or fail. -/
theorem goals_queue (s : Pytanque) (w : Wire) :
    (s.goals w).sess.queue = s.queue := by
  simp only [Pytanque.goals]
  cases hq : s.current_state with
  | error e => simp
  | ok cur =>
    cases hw : (s.query (.goals cur) w).out with
    | error e => simp [hw, query_sess]
    | ok resp =>
      cases hr : GoalsResponse.from_json resp.result <;>
        simp [hw, hr, query_sess]

/-- `premises` never touches the state stack, succeed or fail. -/
theorem premises_queue (s : Pytanque) (w : Wire) :
    (s.premises w).sess.queue = s.queue := by
  simp only [Pytanque.premises]
  cases hq : s.current_state with
  | error e => simp
  | ok cur =>
    cases hw : (s.query (.premises cur) w).out with
    | error e => simp [hw, query_sess]
    | ok resp =>
      cases hr : PremisesResponse.from_json resp.result <;>
        simp [hw, hr, query_sess]

/-- A `runTac` call that raises leaves the state stack unchanged: the
push happens only after a successful decode to a pushing variant. -/
theorem runTac_error_queue (s : Pytanque) (tac : String) (w : Wire)
    (e : Err) (h : (s.runTac tac w).result = .error e) :
    (s.runTac tac w).sess.queue = s.queue := by
  simp only [Pytanque.runTac] at h ⊢
  cases hq : s.current_state with
  | error e2 => simp [hq]
  | ok cur =>
    simp only [hq] at h ⊢
    cases hw : (s.query (.run cur tac) w).out with
    | error e2 => simp [hw, query_sess]
    | ok resp =>
      simp only [hw] at h ⊢
      cases hr : RunResponse.from_json resp.result with
      | error e2 => simp [hr, query_sess]
      | ok res =>
        simp only [hr] at h ⊢
        cases res with
        | CurrentState st => simp at h
        | ProofFinished st => simp at h
        | otherVariant => simp [query_sess]

/-- A `start` call that raises leaves the state stack empty: the stack is
cleared before the request is issued and the push happens only on
success. -/
theorem start_error_queue (s : Pytanque) (file thm : String) (w : Wire)
    (e : Err) (h : (s.start file thm w).result = .error e) :
    (s.start file thm w).sess.queue = [] := by
  simp only [Pytanque.start] at h ⊢
  cases hw : (({ s with file := file, thm := thm, queue := [] } : Pytanque).query
      (.start s.env (as_uri file) thm) w).out with
  | error e2 => simp [hw, query_sess]
  | ok resp => simp [hw] at h

/-! ## Claim C8: failure decoding -/

/-- C8: when the received bytes fail to decode as a `Response` but decode
as a `Failure`, `query` raises a server error carrying exactly that
failure's error message; when they decode as neither, the decode error
(`ValueError`) propagates; in neither case is the success path taken. -/
theorem C8_failure_decode (s : Pytanque) (p : Params) (msg : String) :
    (s.query p (.reply (.failureOnly msg))).out = .error (.serverError msg) ∧
    (s.query p (.reply .neither)).out = .error .valueError :=
  ⟨rfl, rfl⟩

/-! ## Claim C3: response id mismatch -/

/-- C3 counterexample: a `start` call that receives a mismatched response
id raises the mismatch error, yet the proof-state stack after the call
differs from the stack before it — `start` has already cleared the stack
before sending the request, so "the proof-state stack is not modified"
fails for requests issued by `start`. -/
theorem C3_counterexample :
    (Pytanque.start ⟨1, [⟨.num 5, "Start"⟩], .num 0, "a", "b"⟩ "c" "d"
        (.reply (.resp 99 (.num 4)))).result
      = .error (.protocolMismatch 2 99) ∧
    (Pytanque.start ⟨1, [⟨.num 5, "Start"⟩], .num 0, "a", "b"⟩ "c" "d"
        (.reply (.resp 99 (.num 4)))).sess.queue
      ≠ (⟨1, [⟨.num 5, "Start"⟩], .num 0, "a", "b"⟩ : Pytanque).queue :=
  ⟨rfl, by decide⟩

/-- C3 (amended): a reply decoding as a `Response` whose id differs from
the just-sent request's id (`s.id + 1`) makes every operation raise the
protocol error carrying both the sent and the received id, and the
mismatch handling itself never touches the stack: `init`, `runTactic`,
`goals` and `premises` leave the stack exactly as it was, while `start`
leaves it empty — `start` has already cleared the stack before sending,
independent of the reply. -/
theorem C3_id_mismatch (s : Pytanque) (rid : Nat) (res : RVal)
    (root file thm tac : String)
    (hne : s.queue ≠ []) (hid : rid ≠ s.id + 1) :
    ((s.init root (.reply (.resp rid res))).result
        = .error (.protocolMismatch (s.id + 1) rid) ∧
      (s.init root (.reply (.resp rid res))).sess.queue = s.queue) ∧
    ((s.start file thm (.reply (.resp rid res))).result
        = .error (.protocolMismatch (s.id + 1) rid) ∧
      (s.start file thm (.reply (.resp rid res))).sess.queue = []) ∧
    ((s.runTac tac (.reply (.resp rid res))).result
        = .error (.protocolMismatch (s.id + 1) rid) ∧
      (s.runTac tac (.reply (.resp rid res))).sess.queue = s.queue) ∧
    ((s.goals (.reply (.resp rid res))).result
        = .error (.protocolMismatch (s.id + 1) rid) ∧
      (s.goals (.reply (.resp rid res))).sess.queue = s.queue) ∧
    ((s.premises (.reply (.resp rid res))).result
        = .error (.protocolMismatch (s.id + 1) rid) ∧
      (s.premises (.reply (.resp rid res))).sess.queue = s.queue) := by
  cases hq : s.queue with
  | nil => exact absurd hq hne
  | cons st rest =>
    refine ⟨⟨?_, ?_⟩, ⟨?_, ?_⟩, ⟨?_, ?_⟩, ⟨?_, ?_⟩, ⟨?_, ?_⟩⟩ <;>
      simp [Pytanque.init, Pytanque.start, Pytanque.runTac, Pytanque.goals,
        Pytanque.premises, Pytanque.query, Pytanque.current_state, hq, hid]

/-- C3 witness: the amended theorem at a concrete session and reply. -/
theorem C3_id_mismatch_witness :
    ((Pytanque.init ⟨0, [⟨.num 1, "Start"⟩], .num 0, "f", "g"⟩ "r"
        (.reply (.resp 5 (.num 2)))).result
        = .error (.protocolMismatch 1 5) ∧
      (Pytanque.init ⟨0, [⟨.num 1, "Start"⟩], .num 0, "f", "g"⟩ "r"
        (.reply (.resp 5 (.num 2)))).sess.queue = [⟨.num 1, "Start"⟩]) ∧
    ((Pytanque.start ⟨0, [⟨.num 1, "Start"⟩], .num 0, "f", "g"⟩ "f2" "t"
        (.reply (.resp 5 (.num 2)))).result
        = .error (.protocolMismatch 1 5) ∧
      (Pytanque.start ⟨0, [⟨.num 1, "Start"⟩], .num 0, "f", "g"⟩ "f2" "t"
        (.reply (.resp 5 (.num 2)))).sess.queue = []) ∧
    ((Pytanque.runTac ⟨0, [⟨.num 1, "Start"⟩], .num 0, "f", "g"⟩ "tc"
        (.reply (.resp 5 (.num 2)))).result
        = .error (.protocolMismatch 1 5) ∧
      (Pytanque.runTac ⟨0, [⟨.num 1, "Start"⟩], .num 0, "f", "g"⟩ "tc"
        (.reply (.resp 5 (.num 2)))).sess.queue = [⟨.num 1, "Start"⟩]) ∧
    ((Pytanque.goals ⟨0, [⟨.num 1, "Start"⟩], .num 0, "f", "g"⟩
        (.reply (.resp 5 (.num 2)))).result
        = .error (.protocolMismatch 1 5) ∧
      (Pytanque.goals ⟨0, [⟨.num 1, "Start"⟩], .num 0, "f", "g"⟩
        (.reply (.resp 5 (.num 2)))).sess.queue = [⟨.num 1, "Start"⟩]) ∧
    ((Pytanque.premises ⟨0, [⟨.num 1, "Start"⟩], .num 0, "f", "g"⟩
        (.reply (.resp 5 (.num 2)))).result
        = .error (.protocolMismatch 1 5) ∧
      (Pytanque.premises ⟨0, [⟨.num 1, "Start"⟩], .num 0, "f", "g"⟩
        (.reply (.resp 5 (.num 2)))).sess.queue = [⟨.num 1, "Start"⟩]) :=
  C3_id_mismatch ⟨0, [⟨.num 1, "Start"⟩], .num 0, "f", "g"⟩ 5 (.num 2)
    "r" "f2" "t" "tc" (by decide) (by decide)

/-! ## Claim C2: failed calls and the stack -/

/-- C2 counterexample: a failing `start` call (transport down) does NOT
leave the stack as it was: the stack was cleared before the request was
issued, so after the failure it is empty while before the call it held one
entry. -/
theorem C2_counterexample :
    (Pytanque.start ⟨1, [⟨.num 5, "Start"⟩], .num 0, "a", "b"⟩ "c" "d"
        .down).result = .error .transportError ∧
    (Pytanque.start ⟨1, [⟨.num 5, "Start"⟩], .num 0, "a", "b"⟩ "c" "d"
        .down).sess.queue
      ≠ (⟨1, [⟨.num 5, "Start"⟩], .num 0, "a", "b"⟩ : Pytanque).queue :=
  ⟨rfl, by decide⟩

/-- C2 (amended): every failing execution of `init`, `runTac`, `goals`
or `premises` — each operation on its own session, with its own wire
behaviour, so every failure mode is covered: transport error, server
failure, id mismatch, and the result-payload decode failures
(`valueError` / `invalidProofState`) — leaves the in-memory proof-state
stack exactly as it was before the call (the push in `runTac` only
happens after a successful decode); a failing `start` call instead
leaves the stack empty, because `start` clears the stack before issuing
its request. -/
theorem C2_failed_call_stack (s1 s2 s3 s4 s5 : Pytanque)
    (w1 w2 w3 w4 w5 : Wire)
    (root file thm tac : String) (e1 e2 e3 e4 e5 : Err)
    (_h1 : (s1.init root w1).result = .error e1)
    (h2 : (s2.runTac tac w2).result = .error e2)
    (_h3 : (s3.goals w3).result = .error e3)
    (_h4 : (s4.premises w4).result = .error e4)
    (h5 : (s5.start file thm w5).result = .error e5) :
    (s1.init root w1).sess.queue = s1.queue ∧
    (s2.runTac tac w2).sess.queue = s2.queue ∧
    (s3.goals w3).sess.queue = s3.queue ∧
    (s4.premises w4).sess.queue = s4.queue ∧
    (s5.start file thm w5).sess.queue = [] :=
  ⟨init_queue s1 root w1, runTac_error_queue s2 tac w2 e2 h2,
    goals_queue s3 w3, premises_queue s4 w4,
    start_error_queue s5 file thm w5 e5 h5⟩

/-- C2 witness: `init` fails on a server-reported failure, `runTac`,
`goals` and `premises` fail on a matched-id response whose result payload
does not decode (the decode-failure case: an uncaught `ValueError` after
the reply was received), and `start` fails on a transport error; the
stack (one entry before each call) is preserved by all of them except
`start`, which leaves it empty. -/
theorem C2_failed_call_stack_witness :
    (Pytanque.init ⟨0, [⟨.num 1, "Start"⟩], .num 0, "f", "g"⟩ "r"
        (.reply (.failureOnly "boom"))).sess.queue = [⟨.num 1, "Start"⟩] ∧
    (Pytanque.runTac ⟨0, [⟨.num 1, "Start"⟩], .num 0, "f", "g"⟩ "tc"
        (.reply (.resp 1 (.num 7)))).sess.queue = [⟨.num 1, "Start"⟩] ∧
    (Pytanque.goals ⟨0, [⟨.num 1, "Start"⟩], .num 0, "f", "g"⟩
        (.reply (.resp 1 (.num 7)))).sess.queue = [⟨.num 1, "Start"⟩] ∧
    (Pytanque.premises ⟨0, [⟨.num 1, "Start"⟩], .num 0, "f", "g"⟩
        (.reply (.resp 1 (.num 7)))).sess.queue = [⟨.num 1, "Start"⟩] ∧
    (Pytanque.start ⟨0, [⟨.num 1, "Start"⟩], .num 0, "f", "g"⟩ "f2" "t"
        .down).sess.queue = [] :=
  C2_failed_call_stack ⟨0, [⟨.num 1, "Start"⟩], .num 0, "f", "g"⟩
    ⟨0, [⟨.num 1, "Start"⟩], .num 0, "f", "g"⟩
    ⟨0, [⟨.num 1, "Start"⟩], .num 0, "f", "g"⟩
    ⟨0, [⟨.num 1, "Start"⟩], .num 0, "f", "g"⟩
    ⟨0, [⟨.num 1, "Start"⟩], .num 0, "f", "g"⟩
    (.reply (.failureOnly "boom")) (.reply (.resp 1 (.num 7)))
    (.reply (.resp 1 (.num 7))) (.reply (.resp 1 (.num 7))) .down
    "r" "f2" "t" "tc" (.serverError "boom") .valueError .valueError
    .valueError .transportError rfl rfl rfl rfl rfl

/-! ## Claim C4: request ids -/

/-- `mk_request` attaches exactly the id it is given. -/
theorem mk_request_id (i : Nat) (p : Params) : (mk_request i p).id = i := by
  cases p <;> rfl

/-- `init` always sends exactly one request, with id `s.id + 1`, and
leaves the counter at `s.id + 1`, whatever the outcome. -/
theorem init_sent_id (s : Pytanque) (root : String) (w : Wire) :
    (s.init root w).sent.map Request.id = [s.id + 1] ∧
    (s.init root w).sess.id = s.id + 1 := by
  simp only [Pytanque.init]
  cases hw : (s.query (.init (as_uri root)) w).out <;>
    simp [hw, query_sess, query_sent, mk_request_id]

/-- `start` always sends exactly one request, with id `s.id + 1`, and
leaves the counter at `s.id + 1`, whatever the outcome. -/
theorem start_sent_id (s : Pytanque) (file thm : String) (w : Wire) :
    (s.start file thm w).sent.map Request.id = [s.id + 1] ∧
    (s.start file thm w).sess.id = s.id + 1 := by
  simp only [Pytanque.start]
  cases hw : (({ s with file := file, thm := thm, queue := [] } : Pytanque).query
      (.start s.env (as_uri file) thm) w).out <;>
    simp [hw, query_sess, query_sent, mk_request_id]

/-- `runTac` either raises before sending anything (empty stack:
counter untouched) or sends exactly one request with id `s.id + 1`. -/
theorem runTac_sent_id (s : Pytanque) (tac : String) (w : Wire) :
    ((s.runTac tac w).sent = [] ∧ (s.runTac tac w).sess.id = s.id) ∨
    ((s.runTac tac w).sent.map Request.id = [s.id + 1] ∧
      (s.runTac tac w).sess.id = s.id + 1) := by
  simp only [Pytanque.runTac]
  cases hq : s.current_state with
  | error e => exact Or.inl (by simp)
  | ok cur =>
    refine Or.inr ?_
    cases hw : (s.query (.run cur tac) w).out with
    | error e => simp [hw, query_sess, query_sent, mk_request_id]
    | ok resp =>
      cases hr : RunResponse.from_json resp.result with
      | error e => simp [hw, hr, query_sess, query_sent, mk_request_id]
      | ok res =>
        cases res <;> simp [hw, hr, query_sess, query_sent, mk_request_id]

/-- `goals` either raises before sending anything or sends exactly one
request with id `s.id + 1`. -/
theorem goals_sent_id (s : Pytanque) (w : Wire) :
    ((s.goals w).sent = [] ∧ (s.goals w).sess.id = s.id) ∨
    ((s.goals w).sent.map Request.id = [s.id + 1] ∧
      (s.goals w).sess.id = s.id + 1) := by
  simp only [Pytanque.goals]
  cases hq : s.current_state with
  | error e => exact Or.inl (by simp)
  | ok cur =>
    refine Or.inr ?_
    cases hw : (s.query (.goals cur) w).out with
    | error e => simp [hw, query_sess, query_sent, mk_request_id]
    | ok resp =>
      cases hr : GoalsResponse.from_json resp.result <;>
        simp [hw, hr, query_sess, query_sent, mk_request_id]

/-- `premises` either raises before sending anything or sends exactly one
request with id `s.id + 1`. -/
theorem premises_sent_id (s : Pytanque) (w : Wire) :
    ((s.premises w).sent = [] ∧ (s.premises w).sess.id = s.id) ∨
    ((s.premises w).sent.map Request.id = [s.id + 1] ∧
      (s.premises w).sess.id = s.id + 1) := by
  simp only [Pytanque.premises]
  cases hq : s.current_state with
  | error e => exact Or.inl (by simp)
  | ok cur =>
    refine Or.inr ?_
    cases hw : (s.query (.premises cur) w).out with
    | error e => simp [hw, query_sess, query_sent, mk_request_id]
    | ok resp =>
      cases hr : PremisesResponse.from_json resp.result <;>
        simp [hw, hr, query_sess, query_sent, mk_request_id]

/-- Every call either sends nothing and leaves the counter alone, or
sends exactly one request with id `s.id + 1` and bumps the counter. -/
theorem doCall_spec (s : Pytanque) (c : Call) :
    ((doCall s c).2 = [] ∧ (doCall s c).1.id = s.id) ∨
    ((doCall s c).2.map Request.id = [s.id + 1] ∧
      (doCall s c).1.id = s.id + 1) := by
  cases c with
  | init root w => exact Or.inr (by simpa [doCall] using init_sent_id s root w)
  | start file thm w =>
    exact Or.inr (by simpa [doCall] using start_sent_id s file thm w)
  | runTac tac w =>
    rcases runTac_sent_id s tac w with h | h
    · exact Or.inl (by simpa [doCall] using h)
    · exact Or.inr (by simpa [doCall] using h)
  | goals w =>
    rcases goals_sent_id s w with h | h
    · exact Or.inl (by simpa [doCall] using h)
    · exact Or.inr (by simpa [doCall] using h)
  | premises w =>
    rcases premises_sent_id s w with h | h
    · exact Or.inl (by simpa [doCall] using h)
    · exact Or.inr (by simpa [doCall] using h)

/-- Across any sequence of calls the requests sent carry the consecutive
ids `s.id + 1, s.id + 2, ...`, and the counter ends at `s.id` plus the
number of requests sent. -/
theorem runCalls_spec (s : Pytanque) (calls : List Call) :
    (runCalls s calls).2.map Request.id
        = List.range' (s.id + 1) (runCalls s calls).2.length ∧
    (runCalls s calls).1.id = s.id + (runCalls s calls).2.length := by
  induction calls generalizing s with
  | nil => simp [runCalls]
  | cons c cs ih =>
    obtain ⟨hmap, hid⟩ := ih (doCall s c).1
    rcases doCall_spec s c with ⟨hs, hid0⟩ | ⟨hs, hid0⟩
    · simp only [runCalls, List.map_append, List.length_append, hs]
      constructor
      · simpa [hid0] using hmap
      · simp only [List.length_nil, Nat.zero_add]
        omega
    · have hlen : (doCall s c).2.length = 1 := by
        have hx := congrArg List.length hs
        simpa using hx
      simp only [runCalls, List.map_append, List.length_append, hs, hlen]
      constructor
      · rw [hid0] at hmap
        rw [hmap, Nat.add_comm 1 _]
        rw [List.range'_succ]
        simp
      · omega

/-- C4: starting from a fresh client, across every sequence of calls of
the five request kinds (succeeding or failing) the ids attached to the
requests sent are exactly `1, 2, 3, ...` in order: the n-th request sent
carries id n. -/
theorem C4_request_ids (calls : List Call) :
    (runCalls Pytanque.new calls).2.map Request.id
      = List.range' 1 (runCalls Pytanque.new calls).2.length :=
  (runCalls_spec Pytanque.new calls).1

/-! ## Claim C5: runTac result handling -/

/-- C5: on a non-empty stack, with a matching-id reply whose result
decodes to `CurrentState st` or `ProofFinished st`, `runTac tac` pushes
exactly the entry `State(st, tac)` onto the stack and returns that
variant; when the result decodes to any other variant, it raises the
invalid-proof-state error and pushes nothing. -/
theorem C5_runTac_push (s : Pytanque) (tac : String) (r : RunRes)
    (st : Int) (hne : s.queue ≠ [])
    (hr : r = .CurrentState st ∨ r = .ProofFinished st) :
    ((s.runTac tac (.reply (.resp (s.id + 1) (.run r)))).result = .ok r ∧
      (s.runTac tac (.reply (.resp (s.id + 1) (.run r)))).sess.queue
        = ⟨.num st, tac⟩ :: s.queue) ∧
    ((s.runTac tac (.reply (.resp (s.id + 1) (.run .otherVariant)))).result
        = .error .invalidProofState ∧
      (s.runTac tac (.reply (.resp (s.id + 1) (.run .otherVariant)))).sess.queue
        = s.queue) := by
  cases hq : s.queue with
  | nil => exact absurd hq hne
  | cons st0 rest =>
    rcases hr with rfl | rfl <;>
      refine ⟨⟨?_, ?_⟩, ⟨?_, ?_⟩⟩ <;>
      simp [Pytanque.runTac, Pytanque.current_state, Pytanque.query,
        RunResponse.from_json, hq]

/-- C5 witness: a concrete `runTac` pushing `CurrentState 4`, and the
invalid-variant case leaving the stack alone. -/
theorem C5_runTac_push_witness :
    ((Pytanque.runTac ⟨0, [⟨.num 1, "Start"⟩], .num 0, "f", "g"⟩ "tc"
        (.reply (.resp 1 (.run (.CurrentState 4))))).result
        = .ok (.CurrentState 4) ∧
      (Pytanque.runTac ⟨0, [⟨.num 1, "Start"⟩], .num 0, "f", "g"⟩ "tc"
        (.reply (.resp 1 (.run (.CurrentState 4))))).sess.queue
        = [⟨.num 4, "tc"⟩, ⟨.num 1, "Start"⟩]) ∧
    ((Pytanque.runTac ⟨0, [⟨.num 1, "Start"⟩], .num 0, "f", "g"⟩ "tc"
        (.reply (.resp 1 (.run .otherVariant)))).result
        = .error .invalidProofState ∧
      (Pytanque.runTac ⟨0, [⟨.num 1, "Start"⟩], .num 0, "f", "g"⟩ "tc"
        (.reply (.resp 1 (.run .otherVariant)))).sess.queue
        = [⟨.num 1, "Start"⟩]) :=
  C5_runTac_push ⟨0, [⟨.num 1, "Start"⟩], .num 0, "f", "g"⟩ "tc"
    (.CurrentState 4) 4 (by decide) (Or.inl rfl)

/-! ## Claims C6 and C7: stack length and backtrack -/

/-- A successful `runTac tac` pushes exactly one entry
`State(st, tac)` with `st` the handle of the returned variant. -/
theorem runTac_ok_queue (s : Pytanque) (tac : String) (w : Wire)
    (r : RunRes) (h : (s.runTac tac w).result = .ok r) :
    ∃ st, (r = .CurrentState st ∨ r = .ProofFinished st) ∧
      (s.runTac tac w).sess.queue = ⟨.num st, tac⟩ :: s.queue := by
  simp only [Pytanque.runTac] at h ⊢
  cases hq : s.current_state with
  | error e => simp [hq] at h
  | ok cur =>
    simp only [hq] at h ⊢
    cases hw : (s.query (.run cur tac) w).out with
    | error e => simp [hw] at h
    | ok resp =>
      simp only [hw] at h ⊢
      cases hr : RunResponse.from_json resp.result with
      | error e => simp [hr] at h
      | ok res =>
        simp only [hr] at h ⊢
        cases res with
        | CurrentState st =>
          refine ⟨st, Or.inl ?_, ?_⟩
          · have hx : RunRes.CurrentState st = r := by simpa using h
            exact hx.symm
          · simp [query_sess]
        | ProofFinished st =>
          refine ⟨st, Or.inr ?_, ?_⟩
          · have hx : RunRes.ProofFinished st = r := by simpa using h
            exact hx.symm
          · simp [query_sess]
        | otherVariant => simp at h

/-- A sequence of successful `runTac` calls grows the stack by exactly
its length. -/
theorem runTacSeq_length (s s2 : Pytanque) (tws : List (String × Wire))
    (h : runTacSeq s tws = .ok s2) :
    s2.queue.length = s.queue.length + tws.length := by
  induction tws generalizing s with
  | nil =>
    simp only [runTacSeq] at h
    cases h
    simp
  | cons tw rest ih =>
    simp only [runTacSeq] at h
    cases hres : (s.runTac tw.1 tw.2).result with
    | error e => rw [hres] at h; simp at h
    | ok r =>
      rw [hres] at h
      obtain ⟨st, _, hqueue⟩ := runTac_ok_queue s tw.1 tw.2 r hres
      have hlen := ih (s.runTac tw.1 tw.2).sess h
      rw [hqueue] at hlen
      simp only [List.length_cons] at hlen
      simp only [List.length_cons]
      omega

/-- A successful `start` leaves the stack holding exactly the one entry
`State(resp.result, "Start")`. -/
theorem start_ok_queue (s : Pytanque) (file thm : String) (w : Wire)
    (h : (s.start file thm w).result = .ok ()) :
    ∃ v, (s.start file thm w).sess.queue = [⟨v, "Start"⟩] := by
  simp only [Pytanque.start] at h ⊢
  cases hw : (({ s with file := file, thm := thm, queue := [] } : Pytanque).query
      (.start s.env (as_uri file) thm) w).out with
  | error e => simp [hw] at h
  | ok resp => exact ⟨resp.result, by simp [hw]⟩

/-- C6: after a successful `start` the stack holds exactly one entry,
whose action is "Start"; every subsequent sequence of N successful
`runTac` calls leaves the stack at length 1 + N; and `goals` and
`premises` never change the stack length, whatever their outcome. -/
theorem C6_stack_length (s s3 : Pytanque) (file thm : String)
    (w w3 : Wire) (tws : List (String × Wire)) (s2 : Pytanque)
    (hstart : (s.start file thm w).result = .ok ())
    (hrun : runTacSeq (s.start file thm w).sess tws = .ok s2) :
    (s.start file thm w).sess.queue.length = 1 ∧
    (s.start file thm w).sess.queue.map State.action = ["Start"] ∧
    s2.queue.length = 1 + tws.length ∧
    (s3.goals w3).sess.queue.length = s3.queue.length ∧
    (s3.premises w3).sess.queue.length = s3.queue.length := by
  obtain ⟨v, hv⟩ := start_ok_queue s file thm w hstart
  have hlen := runTacSeq_length _ s2 tws hrun
  rw [hv] at hlen
  refine ⟨by simp [hv], by simp [hv], by simp at hlen; omega,
    by rw [goals_queue], by rw [premises_queue]⟩

/-- C6 witness: a fresh client, a successful `start`, then two successful
tactics (one `CurrentState`, one `ProofFinished`); the stack ends at
length 3 = 1 + 2. -/
theorem C6_stack_length_witness :
    (Pytanque.new.start "f" "t" (.reply (.resp 1 (.num 42)))).sess.queue.length
        = 1 ∧
    (Pytanque.new.start "f" "t"
        (.reply (.resp 1 (.num 42)))).sess.queue.map State.action = ["Start"] ∧
    (⟨3, [⟨.num 44, "b"⟩, ⟨.num 43, "a"⟩, ⟨.num 42, "Start"⟩],
        .num 0, "f", "t"⟩ : Pytanque).queue.length = 1 + 2 ∧
    (Pytanque.new.goals .down).sess.queue.length = Pytanque.new.queue.length ∧
    (Pytanque.new.premises .down).sess.queue.length
        = Pytanque.new.queue.length :=
  C6_stack_length Pytanque.new Pytanque.new "f" "t"
    (.reply (.resp 1 (.num 42))) .down
    [("a", .reply (.resp 2 (.run (.CurrentState 43)))),
      ("b", .reply (.resp 3 (.run (.ProofFinished 44))))]
    ⟨3, [⟨.num 44, "b"⟩, ⟨.num 43, "a"⟩, ⟨.num 42, "Start"⟩],
      .num 0, "f", "t"⟩ rfl rfl

/-- C7: after a successful `runTac tac` returning the variant with
handle `st`, the stack has length at least 2, and `backtrack` returns
exactly `(st, tac)` and shrinks the stack by exactly one entry — removing
only the pushed top, so the stack returns to what it was before the
tactic. -/
theorem C7_backtrack_undo (s : Pytanque) (tac : String) (w : Wire)
    (r : RunRes) (st : Int)
    (h : (s.runTac tac w).result = .ok r)
    (hr : r = .CurrentState st ∨ r = .ProofFinished st) :
    2 ≤ (s.runTac tac w).sess.queue.length ∧
    (s.runTac tac w).sess.queue.length = s.queue.length + 1 ∧
    (s.runTac tac w).sess.backtrack.result = .ok (.num st, tac) ∧
    (s.runTac tac w).sess.backtrack.sess.queue = s.queue := by
  have hne : s.queue ≠ [] := by
    intro hq
    simp [Pytanque.runTac, Pytanque.current_state, hq] at h
  obtain ⟨st0, hst0, hqueue⟩ := runTac_ok_queue s tac w r h
  have hst : st0 = st := by
    rcases hr with rfl | rfl <;> rcases hst0 with hx | hx <;> injection hx.symm
  subst hst
  have hpos : 0 < s.queue.length := List.length_pos.mpr hne
  refine ⟨?_, ?_, ?_, ?_⟩
  · rw [hqueue]; simp; omega
  · rw [hqueue]; simp
  · simp [Pytanque.backtrack, hqueue]
  · simp [Pytanque.backtrack, hqueue]

/-- C7 witness: the concrete tactic push from the C5 scenario, undone by
`backtrack`. -/
theorem C7_backtrack_undo_witness :
    2 ≤ (Pytanque.runTac ⟨0, [⟨.num 1, "Start"⟩], .num 0, "f", "g"⟩ "tc"
        (.reply (.resp 1 (.run (.CurrentState 4))))).sess.queue.length ∧
    (Pytanque.runTac ⟨0, [⟨.num 1, "Start"⟩], .num 0, "f", "g"⟩ "tc"
        (.reply (.resp 1 (.run (.CurrentState 4))))).sess.queue.length
      = (⟨0, [⟨.num 1, "Start"⟩], .num 0, "f", "g"⟩ : Pytanque).queue.length
          + 1 ∧
    (Pytanque.runTac ⟨0, [⟨.num 1, "Start"⟩], .num 0, "f", "g"⟩ "tc"
        (.reply (.resp 1 (.run (.CurrentState 4))))).sess.backtrack.result
      = .ok (.num 4, "tc") ∧
    (Pytanque.runTac ⟨0, [⟨.num 1, "Start"⟩], .num 0, "f", "g"⟩ "tc"
        (.reply (.resp 1 (.run (.CurrentState 4))))).sess.backtrack.sess.queue
      = (⟨0, [⟨.num 1, "Start"⟩], .num 0, "f", "g"⟩ : Pytanque).queue :=
  C7_backtrack_undo ⟨0, [⟨.num 1, "Start"⟩], .num 0, "f", "g"⟩ "tc"
    (.reply (.resp 1 (.run (.CurrentState 4)))) (.CurrentState 4) 4
    rfl (Or.inl rfl)
